import Mathlib

/-!
Verification of the `ai-study` repository's frontend HTTP client
(`backend_front` HttpService: the 401-handling response interceptor with
single-flight token refresh), the question-bank upload components, and the
subject-deletion API, against the repository's specification.

The TypeScript source is embedded shallowly: the interceptor's 401 flow is a
step function on an explicit coordinator state, driven by events (a response
error arriving, the in-flight refresh HTTP call settling).  The only true
suspension point in the source is the `await` on the refresh network call, so
each event's handler runs atomically, matching the single-threaded event-loop
environment the code runs in.
-/

namespace AiStudy

/-! ## String helpers

`strIncludes s sub` mirrors JavaScript `s.includes(sub)` (for the non-empty
patterns the client uses): is `sub` a contiguous substring of `s`? -/

/-- Does the character list start with the pattern? -/
def chStarts : List Char → List Char → Bool
  | _, [] => true
  | [], _ :: _ => false
  | c :: cs, p :: ps => c == p && chStarts cs ps

/-- Does the character list contain the pattern as a contiguous sublist? -/
def chHasSub : List Char → List Char → Bool
  | [], pat => pat.isEmpty
  | c :: cs, pat => chStarts (c :: cs) pat || chHasSub cs pat

/-- JavaScript `s.includes(sub)`. -/
def strIncludes (s sub : String) : Bool :=
  chHasSub s.toList sub.toList

/-- JavaScript `s.endsWith(suf)`: is `suf` a suffix of `s`? -/
def strEndsWith (s suf : String) : Bool :=
  chStarts s.toList.reverse suf.toList.reverse

/-! ## Generic error handler

`HttpService.handleError`: maps a failed response to the user-facing message
shown via `ElMessage.error`.  The message is
`error.response?.data?.detail || error.message || '请求失败'` (JS `||`, so the
empty string falls through), dispatched on the HTTP status. -/

/-- `error.response?.data?.detail || error.message || '请求失败'`. -/
def fallbackMsg (detail : Option String) (emsg : String) : String :=
  match detail with
  | some d => if d = "" then (if emsg = "" then "请求失败" else emsg) else d
  | none => if emsg = "" then "请求失败" else emsg

/-- `HttpService.handleError`: the notification text for a failed response
with the given status, response `detail`, error message and error code. -/
def handleErrorMsg (status : Option Nat) (detail : Option String)
    (emsg : String) (ecode : Option String) : String :=
  let message := fallbackMsg detail emsg
  match status with
  | some 400 => "请求错误: " ++ message
  | some 403 => "权限不足"
  | some 404 => "请求的资源不存在"
  | some 500 => "服务器内部错误"
  | _ =>
    if ecode = some "NETWORK_ERROR" || ecode = some "ERR_NETWORK" then
      "网络连接失败，请检查网络设置"
    else message

/-! ## Token storage

Browser local storage under the fixed keys `token` and `refresh_token`
(`getToken` / `getRefreshToken` / `setToken` / `setRefreshToken` /
`clearToken`). -/

structure TokenStorage where
  token : Option String
  refreshTok : Option String
deriving Repr, DecidableEq

/-- `HttpService.clearToken`: removes both stored tokens. -/
def TokenStorage.clearAll (_ : TokenStorage) : TokenStorage :=
  ⟨none, none⟩

/-! ## The token-refresh coordinator -/

/-- State of the response-interceptor coordinator.

* `isRefreshing`, `failedQueue` are the fields of `HttpService`; the queue
  holds (identifiers of) the deferred completions in enqueue order.
* `storage` is the browser local storage.
* `retried` is the set of requests whose `_retry` flag is set.
* `leader` is the request whose handler performed `isRefreshing = true` and
  is awaiting the refresh call.
* `inFlight` counts outstanding refresh HTTP calls; `refreshCalls` counts all
  refresh HTTP calls ever issued. -/
structure CoordState where
  isRefreshing : Bool
  failedQueue : List Nat
  storage : TokenStorage
  retried : List Nat
  leader : Option Nat
  inFlight : Nat
  refreshCalls : Nat
deriving Repr, DecidableEq

/-- Observable effects of one event-handler run, in program order. -/
inductive Action where
  /-- The request's promise is rejected with its own error (`Promise.reject(error)`). -/
  | rejectReq (r : Nat)
  /-- The request's promise is rejected with the refresh error. -/
  | rejectRefreshErr (r : Nat)
  /-- A deferred completion for the request is pushed onto `failedQueue`. -/
  | enqueue (r : Nat)
  /-- The refresh HTTP call `POST /api/v1/auth/refresh` is issued. -/
  | issueRefresh
  /-- `setToken` / `setRefreshToken`: both new tokens written to storage. -/
  | persistTokens (access rtok : String)
  /-- The request's queued deferred resolves with the token; its caller
  retries the original request with that token. -/
  | resolveWith (r : Nat) (tok : String)
  /-- The request is retried directly with the token. -/
  | retryReq (r : Nat) (tok : String)
  /-- `clearToken`: both stored tokens removed. -/
  | clearStorage
  /-- `ElMessage.error` notification. -/
  | notify (msg : String)
  /-- `authStore.logout()`. -/
  | logout
  /-- `router.push(path)`. -/
  | navigate (path : String)
deriving Repr, DecidableEq

/-- Events driving the coordinator: a response error delivered to the
interceptor, or the in-flight refresh HTTP call settling. -/
inductive Event where
  /-- Request `r` failed; `status = none` means no response (network error). -/
  | respError (r : Nat) (status : Option Nat) (url : String)
      (detail : Option String) (emsg : String) (ecode : Option String)
  /-- The refresh call resolved with a new access/refresh token pair. -/
  | refreshOk (access rtok : String)
  /-- The refresh call rejected. -/
  | refreshErr
deriving Repr, DecidableEq

/-- The login endpoint fragment tested by
`originalRequest.url?.includes('/auth/login')`. -/
def loginUrl : String := "/auth/login"

/-- `handleAuthError` message. -/
def expiredMsg : String := "登录已过期，请重新登录"

/-- One event-handler run of the interceptor: mirrors the error callback of
`HttpService.setupInterceptors`'s response interceptor, plus the resumption
of the leader's handler when the awaited refresh call settles
(`refreshToken` body, `processQueue`, `handleAuthError`, the `finally`).
Returns the new state and the emitted actions in program order. -/
def step (s : CoordState) : Event → CoordState × List Action
  | .respError r status url detail emsg ecode =>
    if status = some 401 then
      if r ∈ s.retried then
        -- `!originalRequest._retry` fails: fall through to handleError
        (s, [.notify (handleErrorMsg status detail emsg ecode), .rejectReq r])
      else if strIncludes url loginUrl then
        -- login-endpoint 401: reject immediately, no refresh
        (s, [.rejectReq r])
      else if s.isRefreshing then
        -- refresh already in flight: push a deferred onto the queue
        ({ s with failedQueue := s.failedQueue ++ [r] }, [.enqueue r])
      else
        -- leader: set _retry and isRefreshing, call refreshToken()
        match s.storage.refreshTok with
        | some _ =>
          -- refresh token present: issue the refresh call and suspend
          ({ s with retried := r :: s.retried, isRefreshing := true,
                    leader := some r, inFlight := s.inFlight + 1,
                    refreshCalls := s.refreshCalls + 1 },
           [.issueRefresh])
        | none =>
          -- `throw new Error('No refresh token available')`: refreshToken's
          -- catch clears storage and rethrows; the interceptor's catch runs
          -- processQueue(err), handleAuthError(), rejects, finally resets
          ({ s with retried := r :: s.retried, isRefreshing := false,
                    leader := none, failedQueue := [],
                    storage := s.storage.clearAll },
           .clearStorage :: s.failedQueue.map Action.rejectRefreshErr
             ++ [.clearStorage, .logout, .notify expiredMsg,
                 .navigate "/login", .rejectRefreshErr r])
    else
      -- non-401 error: handleError + reject, nothing else
      (s, [.notify (handleErrorMsg status detail emsg ecode), .rejectReq r])
  | .refreshOk access rtok =>
    if s.inFlight = 0 then (s, [])
    else
      -- refreshToken: setToken, setRefreshToken, return access;
      -- then processQueue(null, access); retry leader; finally reset
      ({ s with storage := ⟨some access, some rtok⟩, failedQueue := [],
                isRefreshing := false, leader := none,
                inFlight := s.inFlight - 1 },
       .persistTokens access rtok
         :: s.failedQueue.map (fun q => Action.resolveWith q access)
         ++ (match s.leader with
             | some l => [.retryReq l access]
             | none => []))
  | .refreshErr =>
    if s.inFlight = 0 then (s, [])
    else
      -- refreshToken's catch: clearToken, rethrow; interceptor's catch:
      -- processQueue(err), handleAuthError, reject(refreshError); finally
      ({ s with storage := s.storage.clearAll, failedQueue := [],
                isRefreshing := false, leader := none,
                inFlight := s.inFlight - 1 },
       .clearStorage :: s.failedQueue.map Action.rejectRefreshErr
         ++ [.clearStorage, .logout, .notify expiredMsg, .navigate "/login"]
         ++ (match s.leader with
             | some l => [.rejectRefreshErr l]
             | none => []))

/-- Run a sequence of events, accumulating emitted actions. -/
def run (s : CoordState) : List Event → CoordState × List Action
  | [] => (s, [])
  | e :: es =>
    let out := step s e
    let rest := run out.1 es
    (rest.1, out.2 ++ rest.2)

/-- The coordinator's initial state: fresh `HttpService` with the given
stored tokens. -/
def initState (st : TokenStorage) : CoordState :=
  ⟨false, [], st, [], none, 0, 0⟩

/-- States reachable from the initial state by event-handler runs. -/
inductive Reachable (st : TokenStorage) : CoordState → Prop where
  | init : Reachable st (initState st)
  | next {s : CoordState} (e : Event) :
      Reachable st s → Reachable st (step s e).1

/-! ## Question-bank upload (client side)

`QuestionBankUpload.vue`: `handleFileChange` validates the selected file
(only its size) and stores it on the form; `handleUpload` validates the form
(name, subject, file are required) and, when valid, sends the multipart
upload request.  `QuestionBanks.vue` has its own separate `handleFileChange`
that additionally rejects files not ending in `.json`. -/

/-- A file selected in the `el-upload` control. -/
structure UploadFile where
  name : String
  size : Nat
deriving Repr, DecidableEq

/-- 10MB, the client-side size limit. -/
def maxUploadSize : Nat := 10 * 1024 * 1024

/-- The upload form's file-related state: the `el-upload` file list, the
form's `file` field, and the error notifications shown so far. -/
structure UploadFormState where
  fileList : List UploadFile
  file : Option UploadFile
  errors : List String
deriving Repr, DecidableEq

/-- `QuestionBankUpload.vue` `handleFileChange`: reject (with a notification,
clearing the selection) only when the file exceeds 10MB; otherwise store the
raw file on the form. -/
def handleFileChange (st : UploadFormState) (f : UploadFile) : UploadFormState :=
  if f.size > maxUploadSize then
    { st with errors := st.errors ++ ["文件大小不能超过 10MB"],
              fileList := [], file := none }
  else
    { st with file := some f }

/-- The multipart request `questionBankApi.uploadQuestionBank` sends. -/
structure UploadRequest where
  name : String
  subjectId : Nat
  fileName : String
deriving Repr, DecidableEq

/-- `QuestionBankUpload.vue` `handleUpload`: validate the form (per
`uploadRules`: name, subject and file required) and, if valid, issue the
upload network request; `none` means no network call was made. -/
def handleUpload (name : String) (subjectId : Nat)
    (st : UploadFormState) : Option UploadRequest :=
  match st.file with
  | none => none
  | some f =>
    if name = "" ∨ subjectId = 0 then none
    else some ⟨name, subjectId, f.name⟩

/-- Selecting a file in a fresh `QuestionBankUpload` dialog and clicking
upload: the network request issued, if any. -/
def uploadAfterSelect (name : String) (subjectId : Nat)
    (f : UploadFile) : Option UploadRequest :=
  handleUpload name subjectId (handleFileChange ⟨[], none, []⟩ f)

/-- `QuestionBanks.vue` `handleFileChange` (the view's own upload dialog):
rejects non-`.json` files, then oversized files, clearing the `el-upload`
selection via `clearFiles`; otherwise stores the file. -/
def qbViewFileChange (st : UploadFormState) (f : UploadFile) : UploadFormState :=
  if !(strEndsWith f.name ".json") then
    { st with errors := st.errors ++ ["只能上传JSON格式的文件"], fileList := [] }
  else if f.size > maxUploadSize then
    { st with errors := st.errors ++ ["文件大小不能超过10MB"], fileList := [] }
  else
    { st with file := some f, fileList := [f] }

/-! ## Subject deletion (backend, modelled from the spec)

The frontend caller is `subjectApi.deleteSubject` with response type
`DeleteSubjectResponse` (`src/services/api.ts`); the backend route handler
for `DELETE /api/v1/questions/subjects/{id}` is not among the available
sources, so it is modelled from the spec. -/

structure SubjectRow where
  id : Nat
  name : String
deriving Repr, DecidableEq

structure QuestionRow where
  id : Nat
  subjectId : Nat
  bankId : Option Nat
  content : String
deriving Repr, DecidableEq

structure QuestionBankRow where
  id : Nat
  subjectId : Nat
  name : String
deriving Repr, DecidableEq

/-- Response shape of `DELETE /api/v1/questions/subjects/{id}`
(`DeleteSubjectResponse` in `api.ts`). -/
structure DeleteSubjectResponse where
  message : String
  deleted_questions : Nat
  deleted_question_banks : Nat
deriving Repr, DecidableEq

/-- The relational store's rows relevant to subject deletion. -/
structure DbState where
  subjects : List SubjectRow
  questions : List QuestionRow
  questionBanks : List QuestionBankRow
deriving Repr, DecidableEq

/-- Modelled from the spec: the backend handler for
`DELETE /api/v1/questions/subjects/{id}` is not in the available sources
(only its frontend caller `subjectApi.deleteSubject` and the
`DeleteSubjectResponse` type are).  Per the spec, cascading delete is
explicit application logic: deleting a Subject explicitly deletes its
Questions and QuestionBanks and returns their counts; a missing subject is
not-found (`none`). -/
def deleteSubject (db : DbState) (sid : Nat) :
    Option (DeleteSubjectResponse × DbState) :=
  match db.subjects.find? (fun s => s.id == sid) with
  | none => none
  | some _ =>
    let qs := db.questions.filter (fun q => q.subjectId == sid)
    let bs := db.questionBanks.filter (fun b => b.subjectId == sid)
    some ({ message := "删除成功",
            deleted_questions := qs.length,
            deleted_question_banks := bs.length },
          { subjects := db.subjects.filter (fun s => !(s.id == sid)),
            questions := db.questions.filter (fun q => !(q.subjectId == sid)),
            questionBanks :=
              db.questionBanks.filter (fun b => !(b.subjectId == sid)) })

/-- Modelled from the spec: `GET` of a single question by id; `none` is a
not-found response. -/
def getQuestion (db : DbState) (qid : Nat) : Option QuestionRow :=
  db.questions.find? (fun q => q.id == qid)

/-- Modelled from the spec: `GET` of a single question bank by id; `none` is
a not-found response. -/
def getQuestionBank (db : DbState) (bid : Nat) : Option QuestionBankRow :=
  db.questionBanks.find? (fun b => b.id == bid)

/-! ## Shared lemmas about the coordinator -/

/-- A representative non-login API url used in scenarios. -/
def apiUrl : String := "/api/v1/questions/"

/-- A 401 failure of request `r` on a plain API endpoint. -/
def fail401 (r : Nat) : Event :=
  Event.respError r (some 401) apiUrl none "" none

/-- `N` requests failing with 401 on a plain API endpoint, in order. -/
def failBurst (N : Nat) : List Event :=
  (List.range N).map fail401

theorem apiUrl_not_login : strIncludes apiUrl loginUrl = false := by decide

theorem run_cons (s : CoordState) (e : Event) (es : List Event) :
    run s (e :: es)
      = ((run (step s e).1 es).1, (step s e).2 ++ (run (step s e).1 es).2) := rfl

/-- A 401 on a plain endpoint while a refresh is in flight only enqueues. -/
theorem step_enqueue (s : CoordState) (r : Nat)
    (h1 : r ∉ s.retried) (h2 : s.isRefreshing = true) :
    step s (fail401 r)
      = ({ s with failedQueue := s.failedQueue ++ [r] }, [.enqueue r]) := by
  simp [step, fail401, h1, h2, apiUrl_not_login]

/-- A 401 on a plain endpoint with no refresh in flight and a stored refresh
token makes the request the leader and issues the refresh call. -/
theorem step_leader (s : CoordState) (r : Nat) (rt : String)
    (h1 : r ∉ s.retried) (h2 : s.isRefreshing = false)
    (h3 : s.storage.refreshTok = some rt) :
    step s (fail401 r)
      = ({ s with retried := r :: s.retried, isRefreshing := true,
                  leader := some r, inFlight := s.inFlight + 1,
                  refreshCalls := s.refreshCalls + 1 },
         [.issueRefresh]) := by
  simp [step, fail401, h1, h2, h3, apiUrl_not_login]

/-- While a refresh is in flight, a burst of fresh 401s is appended to the
queue in arrival order and nothing else changes. -/
theorem run_enqueue (ids : List Nat) (s : CoordState)
    (h2 : s.isRefreshing = true) (h1 : ∀ i ∈ ids, i ∉ s.retried) :
    run s (ids.map fail401)
      = ({ s with failedQueue := s.failedQueue ++ ids },
         ids.map Action.enqueue) := by
  induction ids generalizing s with
  | nil => simp [run]
  | cons i is ih =>
    rw [List.map_cons, run_cons,
        step_enqueue s i (h1 i (by simp)) h2]
    rw [ih { s with failedQueue := s.failedQueue ++ [i] } h2
        (fun j hj => h1 j (by simp [hj]))]
    simp

/-- The inductive invariant: the `isRefreshing` flag tracks whether exactly
one refresh call is outstanding, and at most one ever is. -/
def coordInv (s : CoordState) : Prop :=
  (s.isRefreshing = true ↔ s.inFlight = 1) ∧ s.inFlight ≤ 1

theorem coordInv_init (st : TokenStorage) : coordInv (initState st) := by
  constructor <;> simp [initState]

theorem coordInv_step (s : CoordState) (e : Event) (h : coordInv s) :
    coordInv (step s e).1 := by
  obtain ⟨h1, h2⟩ := h
  cases e with
  | respError r status url detail emsg ecode =>
    simp only [step]
    split
    · split
      · exact ⟨h1, h2⟩
      · split
        · exact ⟨h1, h2⟩
        · split
          · exact ⟨h1, h2⟩
          · next hr =>
            have hr0 : s.inFlight = 0 := by
              rcases Nat.lt_or_ge s.inFlight 1 with hlt | hge
              · omega
              · exact absurd (h1.mpr (by omega)) hr
            split
            · exact ⟨by simp [hr0], by simp [hr0]⟩
            · exact ⟨by simp [hr0], by simp [hr0, h2]⟩
    · exact ⟨h1, h2⟩
  | refreshOk access rtok =>
    simp only [step]
    split
    · exact ⟨h1, h2⟩
    · next hf => exact ⟨by simp; omega, by simp; omega⟩
  | refreshErr =>
    simp only [step]
    split
    · exact ⟨h1, h2⟩
    · next hf => exact ⟨by simp; omega, by simp; omega⟩

theorem coordInv_reachable {st : TokenStorage} {s : CoordState}
    (h : Reachable st s) : coordInv s := by
  induction h with
  | init => exact coordInv_init st
  | next e _ ih => exact coordInv_step _ e ih

/-- A concrete mid-refresh coordinator state used to instantiate theorems:
refresh in flight for leader 3, requests 7 and 8 queued. -/
def demoState : CoordState :=
  ⟨true, [7, 8], ⟨some "tk", some "rk"⟩, [3], some 3, 1, 1⟩

/-! ## Claims -/

/-- C1.  Single-flight refresh: in every reachable state of the coordinator,
at most one token-refresh request is in flight; and for a burst of `M + 1`
requests failing with 401 while no refresh is in progress (a refresh token
being stored), exactly one refresh call is issued, the other `M` requests
are enqueued in order, and on refresh success each queued one is resolved
with the new access token (its caller retrying with it) and the leader is
retried with it too. -/
theorem single_flight_refresh (t0 rt0 : String) (M : Nat) (a rt : String) :
    (∀ s : CoordState, Reachable ⟨some t0, some rt0⟩ s → s.inFlight ≤ 1) ∧
    (run (initState ⟨some t0, some rt0⟩) (failBurst (M + 1))).1.refreshCalls = 1 ∧
    (run (initState ⟨some t0, some rt0⟩) (failBurst (M + 1))).2
      = Action.issueRefresh
          :: ((List.range M).map Nat.succ).map Action.enqueue ∧
    (run (initState ⟨some t0, some rt0⟩) (failBurst (M + 1))).1.failedQueue
      = (List.range M).map Nat.succ ∧
    (step (run (initState ⟨some t0, some rt0⟩) (failBurst (M + 1))).1
        (.refreshOk a rt)).2
      = Action.persistTokens a rt
          :: ((List.range M).map Nat.succ).map (fun q => Action.resolveWith q a)
          ++ [Action.retryReq 0 a] := by
  have hburst : failBurst (M + 1)
      = fail401 0 :: ((List.range M).map Nat.succ).map fail401 := by
    rw [failBurst, List.range_succ_eq_map, List.map_cons, List.map_map]
  have hstep0 : step (initState ⟨some t0, some rt0⟩) (fail401 0)
      = (⟨true, [], ⟨some t0, some rt0⟩, [0], some 0, 1, 1⟩,
         [.issueRefresh]) := by
    rw [step_leader (initState ⟨some t0, some rt0⟩) 0 rt0 (by simp [initState])
        (by simp [initState]) (by simp [initState])]
    simp [initState]
  have hrun : run (initState ⟨some t0, some rt0⟩) (failBurst (M + 1))
      = (⟨true, (List.range M).map Nat.succ, ⟨some t0, some rt0⟩, [0],
          some 0, 1, 1⟩,
         Action.issueRefresh
           :: ((List.range M).map Nat.succ).map Action.enqueue) := by
    rw [hburst, run_cons, hstep0]
    rw [run_enqueue ((List.range M).map Nat.succ)
        ⟨true, [], ⟨some t0, some rt0⟩, [0], some 0, 1, 1⟩ rfl
        (by intro i hi
            simp only [List.mem_map] at hi
            obtain ⟨j, _, rfl⟩ := hi
            simp)]
    simp
  refine ⟨fun s hs => (coordInv_reachable hs).2, ?_, ?_, ?_, ?_⟩
  · rw [hrun]
  · rw [hrun]
  · rw [hrun]
  · rw [hrun]
    simp [step]

/-- C2.  A 401 on the login endpoint is rejected immediately: the state
(refreshing flag, queue) is unchanged, no refresh call is issued, nothing is
enqueued, and the request's promise is rejected. -/
theorem login_401_rejects_immediately (s : CoordState) (r : Nat) (url : String)
    (detail : Option String) (emsg : String) (ecode : Option String)
    (h : strIncludes url loginUrl = true) :
    (step s (.respError r (some 401) url detail emsg ecode)).1 = s ∧
    Action.issueRefresh ∉ (step s (.respError r (some 401) url detail emsg ecode)).2 ∧
    Action.enqueue r ∉ (step s (.respError r (some 401) url detail emsg ecode)).2 ∧
    Action.rejectReq r ∈ (step s (.respError r (some 401) url detail emsg ecode)).2 := by
  by_cases hr : r ∈ s.retried
  · simp [step, hr]
  · simp [step, hr, h]

/-- C3.  A request already marked `_retry` that fails again with 401 does not
re-enter the refresh flow: the interceptor falls through to the generic
error handler, the state is unchanged (no refresh issued, nothing enqueued),
and the request is rejected. -/
theorem retried_request_no_reentry (s : CoordState) (r : Nat) (url : String)
    (detail : Option String) (emsg : String) (ecode : Option String)
    (h : r ∈ s.retried) :
    step s (.respError r (some 401) url detail emsg ecode)
      = (s, [.notify (handleErrorMsg (some 401) detail emsg ecode),
             .rejectReq r]) := by
  simp [step, h]

/-- C4.  On refresh failure, every queued deferred is rejected with the
refresh error, both stored tokens are cleared, and the refresh error is
surfaced to the leader. -/
theorem refresh_failure_rejects_and_clears (s : CoordState) (l : Nat)
    (hf : s.inFlight ≠ 0) (hl : s.leader = some l) :
    (step s .refreshErr).1.storage.token = none ∧
    (step s .refreshErr).1.storage.refreshTok = none ∧
    (∀ q ∈ s.failedQueue,
      Action.rejectRefreshErr q ∈ (step s .refreshErr).2) ∧
    Action.rejectRefreshErr l ∈ (step s .refreshErr).2 := by
  refine ⟨?_, ?_, ?_, ?_⟩
  · simp [step, hf, TokenStorage.clearAll]
  · simp [step, hf, TokenStorage.clearAll]
  · intro q hq
    simp only [step, if_neg hf, hl]
    simp only [List.cons_append, List.mem_cons, List.mem_append,
      List.mem_map]
    exact Or.inr (Or.inl (Or.inl ⟨q, hq, rfl⟩))
  · simp [step, hf, hl]

/-- C5.  On refresh success, the new tokens are persisted first, then every
queued deferred is resolved with the new access token in queue (enqueue)
order, then the leader retries its request with the new token; the state
records the persisted tokens. -/
theorem refresh_success_persists_then_processes (s : CoordState) (l : Nat)
    (a rt : String) (hf : s.inFlight ≠ 0) (hl : s.leader = some l) :
    step s (.refreshOk a rt)
      = ({ s with storage := ⟨some a, some rt⟩, failedQueue := [],
                  isRefreshing := false, leader := none,
                  inFlight := s.inFlight - 1 },
         Action.persistTokens a rt
           :: s.failedQueue.map (fun q => Action.resolveWith q a)
           ++ [Action.retryReq l a]) := by
  simp [step, hf, hl]

/-- C6.  Whether the refresh attempt succeeds or fails, the coordinator ends
the completion handler with `isRefreshing = false` and an empty queue. -/
theorem refresh_completion_resets (s : CoordState) (a rt : String)
    (hf : s.inFlight ≠ 0) :
    ((step s (.refreshOk a rt)).1.isRefreshing = false ∧
     (step s (.refreshOk a rt)).1.failedQueue = []) ∧
    ((step s .refreshErr).1.isRefreshing = false ∧
     (step s .refreshErr).1.failedQueue = []) := by
  refine ⟨⟨?_, ?_⟩, ⟨?_, ?_⟩⟩ <;> simp [step, hf]

/-- C9.  A failed response whose status is not 401 (400, 403, 404, 500, or
no response at all) is mapped to a user-facing notification and rejected
with the caller's own error, with the coordinator state unchanged — no
retry, no refresh, no enqueue; the notification text follows
`handleError`'s status switch. -/
theorem non_auth_error_notifies_no_retry (s : CoordState) (r : Nat)
    (status : Option Nat) (url : String) (detail : Option String)
    (emsg : String) (ecode : Option String) (h : status ≠ some 401) :
    step s (.respError r status url detail emsg ecode)
      = (s, [.notify (handleErrorMsg status detail emsg ecode),
             .rejectReq r]) ∧
    handleErrorMsg (some 400) detail emsg ecode
      = "请求错误: " ++ fallbackMsg detail emsg ∧
    handleErrorMsg (some 403) detail emsg ecode = "权限不足" ∧
    handleErrorMsg (some 404) detail emsg ecode = "请求的资源不存在" ∧
    handleErrorMsg (some 500) detail emsg ecode = "服务器内部错误" ∧
    handleErrorMsg none detail emsg (some "ERR_NETWORK")
      = "网络连接失败，请检查网络设置" := by
  refine ⟨by simp [step, h], rfl, rfl, rfl, rfl, rfl⟩

/-- Scenario for the queued-retry claim: request 0 leads a refresh, request 1
is queued; the refresh succeeds; then request 1's retry fails with 401
again. -/
def burstThenRetryFail : List Event :=
  [fail401 0, fail401 1, .refreshOk "newAccess" "newRefresh", fail401 1]

/-- Storage holding a token pair, for concrete scenarios. -/
def demoStorage : TokenStorage := ⟨some "tok0", some "ref0"⟩

/-- C10.  A request queued during an in-flight refresh is retried without the
`_retry` marker: after the refresh succeeds only the leader (request 0) is
marked, the queued request 1 was resolved with the new token, and when its
retry fails with 401 again it re-enters the refresh flow, so a second
refresh call is issued. -/
theorem queued_retry_unmarked_second_refresh :
    (run (initState demoStorage) (burstThenRetryFail.take 3)).1.retried = [0] ∧
    Action.resolveWith 1 "newAccess"
      ∈ (run (initState demoStorage) (burstThenRetryFail.take 3)).2 ∧
    (run (initState demoStorage) burstThenRetryFail).1.refreshCalls = 2 ∧
    (run (initState demoStorage) burstThenRetryFail).1.leader = some 1 ∧
    (run (initState demoStorage) burstThenRetryFail).2.count
      Action.issueRefresh = 2 := by
  decide

/-- A 2KB `.txt` file, an unsupported extension within the size limit. -/
def txtFile : UploadFile := ⟨"notes.txt", 2048⟩

/-- C7 counterexample.  In `QuestionBankUpload.vue`, selecting a `.txt` file
within the size limit is not rejected: `handleFileChange` emits no error and
stores the file, and `handleUpload` then issues the upload network request
for it — contradicting "the upload request is never sent for such a
file". -/
theorem txt_upload_request_sent :
    (handleFileChange ⟨[], none, []⟩ txtFile).errors = [] ∧
    (handleFileChange ⟨[], none, []⟩ txtFile).file = some txtFile ∧
    uploadAfterSelect "示例题库" 1 txtFile
      = some ⟨"示例题库", 1, "notes.txt"⟩ := by
  decide

/-- C7 (amended).  In the `QuestionBankUpload` component the only client-side
file check before the network call is the 10MB size limit: an oversized file
is rejected with no upload request, while a supported-size file with an
unsupported extension such as `.txt` passes and the upload request is sent
(the `accept` attribute only filters the file picker).  The separate upload
dialog of the `QuestionBanks` view does reject non-`.json` files
client-side. -/
theorem upload_client_checks_size_only (name : String) (sid : Nat)
    (f : UploadFile) (hbig : f.size > maxUploadSize) :
    uploadAfterSelect name sid f = none ∧
    uploadAfterSelect "示例题库" 1 txtFile
      = some ⟨"示例题库", 1, "notes.txt"⟩ ∧
    (qbViewFileChange ⟨[], none, []⟩ txtFile).file = none ∧
    (qbViewFileChange ⟨[], none, []⟩ txtFile).errors
      = ["只能上传JSON格式的文件"] := by
  refine ⟨?_, by decide, by decide, by decide⟩
  simp [uploadAfterSelect, handleFileChange, handleUpload, hbig]

/-- C8.  Deleting a subject that owns `Q` questions and `B` question banks
(ids being unique, as primary keys) reports exactly `Q` deleted questions
and `B` deleted question banks, and afterwards `GET` of any of those
questions or question banks is not-found. -/
theorem delete_subject_cascade (db : DbState) (sid : Nat)
    (hs : (db.subjects.find? (fun s => s.id == sid)).isSome = true)
    (hq : (db.questions.map QuestionRow.id).Nodup)
    (hb : (db.questionBanks.map QuestionBankRow.id).Nodup) :
    ∃ resp db2,
      deleteSubject db sid = some (resp, db2) ∧
      resp.deleted_questions
        = (db.questions.filter (fun q => q.subjectId == sid)).length ∧
      resp.deleted_question_banks
        = (db.questionBanks.filter (fun b => b.subjectId == sid)).length ∧
      (∀ q ∈ db.questions, q.subjectId = sid →
        getQuestion db2 q.id = none) ∧
      (∀ b ∈ db.questionBanks, b.subjectId = sid →
        getQuestionBank db2 b.id = none) := by
  obtain ⟨srow, hsrow⟩ := Option.isSome_iff_exists.mp hs
  have hdel : deleteSubject db sid
      = some ({ message := "删除成功",
                deleted_questions :=
                  (db.questions.filter (fun q => q.subjectId == sid)).length,
                deleted_question_banks :=
                  (db.questionBanks.filter
                    (fun b => b.subjectId == sid)).length },
              { subjects := db.subjects.filter (fun s => !(s.id == sid)),
                questions :=
                  db.questions.filter (fun q => !(q.subjectId == sid)),
                questionBanks :=
                  db.questionBanks.filter
                    (fun b => !(b.subjectId == sid)) }) := by
    simp only [deleteSubject, hsrow]
  refine ⟨_, _, hdel, rfl, rfl, ?_, ?_⟩
  · intro q hq0 hqs
    rw [getQuestion, List.find?_eq_none]
    intro x hx
    simp only [List.mem_filter, Bool.not_eq_true', beq_eq_false_iff_ne,
      ne_eq] at hx
    simp only [beq_iff_eq]
    intro hxq
    exact hx.2 (List.inj_on_of_nodup_map hq hx.1 hq0 hxq ▸ hqs)
  · intro b hb0 hbs
    rw [getQuestionBank, List.find?_eq_none]
    intro x hx
    simp only [List.mem_filter, Bool.not_eq_true', beq_eq_false_iff_ne,
      ne_eq] at hx
    simp only [beq_iff_eq]
    intro hxb
    exact hx.2 (List.inj_on_of_nodup_map hb hx.1 hb0 hxb ▸ hbs)

/-! ## Witnesses -/

theorem login_401_rejects_immediately_witness :
    strIncludes "/api/v1/auth/login" loginUrl = true ∧
    ((step demoState (.respError 5 (some 401) "/api/v1/auth/login" none "" none)).1
        = demoState ∧
     Action.issueRefresh
       ∉ (step demoState (.respError 5 (some 401) "/api/v1/auth/login" none "" none)).2 ∧
     Action.enqueue 5
       ∉ (step demoState (.respError 5 (some 401) "/api/v1/auth/login" none "" none)).2 ∧
     Action.rejectReq 5
       ∈ (step demoState (.respError 5 (some 401) "/api/v1/auth/login" none "" none)).2) :=
  ⟨by decide,
   login_401_rejects_immediately demoState 5 "/api/v1/auth/login" none "" none
     (by decide)⟩

theorem retried_request_no_reentry_witness :
    3 ∈ demoState.retried ∧
    step demoState (.respError 3 (some 401) apiUrl none "" none)
      = (demoState,
         [.notify (handleErrorMsg (some 401) none "" none), .rejectReq 3]) :=
  ⟨by decide,
   retried_request_no_reentry demoState 3 apiUrl none "" none (by decide)⟩

theorem refresh_failure_rejects_and_clears_witness :
    demoState.inFlight ≠ 0 ∧ demoState.leader = some 3 ∧
    ((step demoState .refreshErr).1.storage.token = none ∧
     (step demoState .refreshErr).1.storage.refreshTok = none ∧
     (∀ q ∈ demoState.failedQueue,
       Action.rejectRefreshErr q ∈ (step demoState .refreshErr).2) ∧
     Action.rejectRefreshErr 3 ∈ (step demoState .refreshErr).2) :=
  ⟨by decide, by decide,
   refresh_failure_rejects_and_clears demoState 3 (by decide) (by decide)⟩

theorem refresh_success_persists_then_processes_witness :
    demoState.inFlight ≠ 0 ∧ demoState.leader = some 3 ∧
    step demoState (.refreshOk "newA" "newR")
      = ({ demoState with storage := ⟨some "newA", some "newR"⟩,
                          failedQueue := [], isRefreshing := false,
                          leader := none,
                          inFlight := demoState.inFlight - 1 },
         Action.persistTokens "newA" "newR"
           :: demoState.failedQueue.map (fun q => Action.resolveWith q "newA")
           ++ [Action.retryReq 3 "newA"]) :=
  ⟨by decide, by decide,
   refresh_success_persists_then_processes demoState 3 "newA" "newR"
     (by decide) (by decide)⟩

theorem refresh_completion_resets_witness :
    demoState.inFlight ≠ 0 ∧
    (((step demoState (.refreshOk "newA" "newR")).1.isRefreshing = false ∧
      (step demoState (.refreshOk "newA" "newR")).1.failedQueue = []) ∧
     ((step demoState .refreshErr).1.isRefreshing = false ∧
      (step demoState .refreshErr).1.failedQueue = [])) :=
  ⟨by decide, refresh_completion_resets demoState "newA" "newR" (by decide)⟩

theorem non_auth_error_notifies_no_retry_witness :
    (some 404 : Option Nat) ≠ some 401 ∧
    (step demoState (.respError 9 (some 404) apiUrl none "" none)
        = (demoState,
           [.notify (handleErrorMsg (some 404) none "" none), .rejectReq 9]) ∧
     handleErrorMsg (some 400) none "" none
       = "请求错误: " ++ fallbackMsg none "" ∧
     handleErrorMsg (some 403) none "" none = "权限不足" ∧
     handleErrorMsg (some 404) none "" none = "请求的资源不存在" ∧
     handleErrorMsg (some 500) none "" none = "服务器内部错误" ∧
     handleErrorMsg none none "" (some "ERR_NETWORK")
       = "网络连接失败，请检查网络设置") :=
  ⟨by decide,
   non_auth_error_notifies_no_retry demoState 9 (some 404) apiUrl none "" none
     (by decide)⟩

/-- An oversized (20MB) file for the upload-size witness. -/
def bigFile : UploadFile := ⟨"big.json", 20 * 1024 * 1024⟩

theorem upload_client_checks_size_only_witness :
    bigFile.size > maxUploadSize ∧
    (uploadAfterSelect "大题库" 1 bigFile = none ∧
     uploadAfterSelect "示例题库" 1 txtFile
       = some ⟨"示例题库", 1, "notes.txt"⟩ ∧
     (qbViewFileChange ⟨[], none, []⟩ txtFile).file = none ∧
     (qbViewFileChange ⟨[], none, []⟩ txtFile).errors
       = ["只能上传JSON格式的文件"]) :=
  ⟨by decide, upload_client_checks_size_only "大题库" 1 bigFile (by decide)⟩

/-- A concrete store: one subject owning two questions and one bank. -/
def demoDb : DbState :=
  ⟨[⟨1, "软件架构"⟩],
   [⟨10, 1, some 5, "第一题"⟩, ⟨11, 1, none, "第二题"⟩],
   [⟨5, 1, "基础题库"⟩]⟩

theorem delete_subject_cascade_witness :
    (demoDb.subjects.find? (fun s => s.id == 1)).isSome = true ∧
    (demoDb.questions.map QuestionRow.id).Nodup ∧
    (demoDb.questionBanks.map QuestionBankRow.id).Nodup ∧
    (∃ resp db2,
      deleteSubject demoDb 1 = some (resp, db2) ∧
      resp.deleted_questions
        = (demoDb.questions.filter (fun q => q.subjectId == 1)).length ∧
      resp.deleted_question_banks
        = (demoDb.questionBanks.filter (fun b => b.subjectId == 1)).length ∧
      (∀ q ∈ demoDb.questions, q.subjectId = 1 →
        getQuestion db2 q.id = none) ∧
      (∀ b ∈ demoDb.questionBanks, b.subjectId = 1 →
        getQuestionBank db2 b.id = none)) :=
  ⟨by decide, by decide, by decide,
   delete_subject_cascade demoDb 1 (by decide) (by decide) (by decide)⟩

end AiStudy
